import Mathlib

/-!
Shallow embedding of the audio recording pipeline: linear-interpolation
resampling to 16 kHz, quantization to signed 16-bit PCM, RMS / exact-zero
silence detection, chunk accumulation and WAV container serialization,
together with the per-block recording callbacks of the three inline
variants (worklet `main.js`, script-processor `main-scriptprocessor.js`,
worker-offloaded variant).

Audio samples are modelled as exact rationals (JS numbers are binary
floats, a subset of ℚ; the one float operation whose result is not exact,
linear interpolation, is modelled by its exact rational value, which is
what the specification's statements quantify over).  Int16 storage uses
the ECMAScript `ToInt16` conversion: truncate toward zero, then reduce
modulo 2^16 into the signed range.  Byte buffers are lists of naturals
below 256.
-/

/-- JS truncation toward zero (the integer step of `ToInt16`). -/
def jsTrunc (q : ℚ) : ℤ := if 0 ≤ q then ⌊q⌋ else ⌈q⌉

/-- ECMAScript `ToInt16`, applied on every store into an `Int16Array` or by
`DataView.setInt16`: truncate toward zero, reduce modulo 2^16, reinterpret
as signed. -/
def toInt16 (q : ℚ) : ℤ :=
  if 32768 ≤ jsTrunc q % 65536 then jsTrunc q % 65536 - 65536 else jsTrunc q % 65536

/-- `main.js` `isSilent`: true iff every sample is exactly zero. -/
def isSilent (chunk : List ℤ) : Bool :=
  chunk.all (fun v => v == 0)

/-- `SilenceDetector.isAbsolutelySilent` (script-processor refactor):
`samples.every(sample => sample === 0)` on the PCM16 block. -/
def isAbsolutelySilent (samples : List ℤ) : Bool :=
  samples.all (fun v => v == 0)

/-- Sum of squared samples of a PCM16 block. -/
def sumSquares (xs : List ℤ) : ℤ :=
  (xs.map (fun v => v * v)).sum

/-- `main.js` `isSilentFrame`: rms = sqrt(sum of squares / length) < 25.
For an empty block JS computes `0/0 = NaN`, and `NaN < 25` is `false`;
that case is modelled by the explicit empty branch.  For a nonempty block
the radicand is nonnegative, so `sqrt(s/n) < 25` holds iff `s/n < 625`
(`rms_threshold_semantics` re-states the comparison through `Real.sqrt`). -/
def isSilentFrame (int16 : List ℤ) : Bool :=
  if int16.length = 0 then false
  else decide ((sumSquares int16 : ℚ) / (int16.length : ℚ) < 625)

/-- `SilenceDetector.isBelowThreshold` (script-processor refactor): same
RMS comparison against `SILENCE_THRESHOLD = 25`, with the same JS `NaN`
behaviour on the empty block. -/
def isBelowThreshold (samples : List ℤ) : Bool :=
  if samples.length = 0 then false
  else decide ((sumSquares samples : ℚ) / (samples.length : ℚ) < 625)

/-- Sum of squared samples of a float block. -/
def sumSquaresQ (xs : List ℚ) : ℚ :=
  (xs.map (fun v => v * v)).sum

/-- `SilenceDetector.isAbsolutelySilentFloat32` (worker-offloaded variant):
every float sample exactly zero. -/
def isAbsolutelySilentFloat32 (samples : List ℚ) : Bool :=
  samples.all (fun v => v == 0)

/-- `SilenceDetector.isBelowThresholdFloat32` (worker-offloaded variant):
rms = sqrt(sum of squares / length) < 0.001, with the JS `NaN` behaviour
on the empty block (`0/0 = NaN`, `NaN < 0.001` is `false`). -/
def isBelowThresholdFloat32 (samples : List ℚ) : Bool :=
  if samples.length = 0 then false
  else decide (sumSquaresQ samples / (samples.length : ℚ) < 1 / 1000000)

/-- Shared body of the linear-interpolation resamplers: output length
`floor(length / ratio)`; output `i` interpolates between the input samples
at `floor(i * ratio)` and `min(floor(i * ratio) + 1, length - 1)` by the
fractional part of `i * ratio`. -/
def resampleCore (input : List ℚ) (ratio : ℚ) : List ℚ :=
  let outLen := (⌊(input.length : ℚ) / ratio⌋).toNat
  (List.range outLen).map (fun (i : ℕ) =>
    let idx : ℚ := (i : ℚ) * ratio
    let i0 := ⌊idx⌋
    let i1 := min (i0 + 1) ((input.length : ℤ) - 1)
    let frac := idx - (i0 : ℚ)
    input.getD i0.toNat 0 * (1 - frac) + input.getD i1.toNat 0 * frac)

/-- Audio-worker `downsample(float32Data, sourceRate, targetRate)`:
pure float-to-float linear-interpolation resampler with
`ratio = sourceRate / targetRate`. -/
def downsample (float32Data : List ℚ) (sourceRate targetRate : ℚ) : List ℚ :=
  resampleCore float32Data (sourceRate / targetRate)

/-- `main.js` `downsampleTo16k(input, rate)`: resample with
`ratio = rate / 16000` and store each interpolated sample times `0x7fff`
into an `Int16Array` (so through `ToInt16`, with no clamping).
`AudioProcessor.downsample` of the script-processor refactor is the same
function with `TARGET_SAMPLE_RATE = 16000`. -/
def downsampleTo16k (input : List ℚ) (rate : ℚ) : List ℤ :=
  (resampleCore input (rate / 16000)).map (fun sample => toInt16 (sample * 32767))

/-- Audio-worker `float32ToInt16`: clamp each sample to `[-1, 1]` with
`Math.max(-1, Math.min(1, x))`, multiply by `0x7fff`, store into an
`Int16Array`. -/
def float32ToInt16 (float32Data : List ℚ) : List ℤ :=
  float32Data.map (fun x => toInt16 (max (-1) (min 1 x) * 32767))

/-- `mergeChunks` / `AudioProcessor.mergeChunks`: concatenate all appended
PCM16 blocks into one contiguous buffer, in order. -/
def mergeChunks (chunks : List (List ℤ)) : List ℤ :=
  chunks.flatten

/-- Two little-endian bytes of an unsigned 16-bit value. -/
def u16LE (v : ℕ) : List ℕ :=
  [v % 256, v / 256 % 256]

/-- Four little-endian bytes of an unsigned 32-bit value (as written by
`DataView.setUint32(…, true)`, i.e. the value modulo 2^32). -/
def u32LE (v : ℕ) : List ℕ :=
  [v % 256, v / 256 % 256, v / 65536 % 256, v / 16777216 % 256]

/-- `DataView.setInt16(…, true)`: the two little-endian bytes of the
sample value modulo 2^16. -/
def i16LE (s : ℤ) : List ℕ :=
  u16LE (s % 65536).toNat

/-- The 44-byte canonical WAV header written by `buildWav` /
`WavEncoder.encode` for `n` samples: RIFF chunk, fmt sub-chunk
(PCM, mono, 16000 Hz, byte rate 32000, block align 2, 16 bits) and the
data sub-chunk header. -/
def wavHeader (n : ℕ) : List ℕ :=
  [82, 73, 70, 70] ++ u32LE (36 + 2 * n) ++ [87, 65, 86, 69] ++
  [102, 109, 116, 32] ++ u32LE 16 ++ u16LE 1 ++ u16LE 1 ++
  u32LE 16000 ++ u32LE 32000 ++ u16LE 2 ++ u16LE 16 ++
  [100, 97, 116, 97] ++ u32LE (2 * n)

/-- `buildWav` / `WavEncoder.encode`: the 44-byte header followed by the
samples written little-endian via `setInt16`. -/
def buildWav (samples : List ℤ) : List ℕ :=
  wavHeader samples.length ++ samples.flatMap i16LE

/-- Read an unsigned little-endian 16-bit field at a byte offset. -/
def readU16LE (bs : List ℕ) (off : ℕ) : ℕ :=
  bs.getD off 0 + 256 * bs.getD (off + 1) 0

/-- Read an unsigned little-endian 32-bit field at a byte offset. -/
def readU32LE (bs : List ℕ) (off : ℕ) : ℕ :=
  bs.getD off 0 + 256 * bs.getD (off + 1) 0 + 65536 * bs.getD (off + 2) 0 +
    16777216 * bs.getD (off + 3) 0

/-- The `n` bytes of a buffer starting at a byte offset. -/
def sliceBytes (bs : List ℕ) (off n : ℕ) : List ℕ :=
  (bs.drop off).take n

/-- Interpret a byte list as consecutive little-endian signed 16-bit
samples (a trailing odd byte is ignored). -/
def decodeI16Pairs : List ℕ → List ℤ
  | a :: b :: rest =>
      (if 32768 ≤ a + 256 * b then (a + 256 * b : ℤ) - 65536 else (a + 256 * b : ℤ)) ::
        decodeI16Pairs rest
  | _ => []

/-- Decode the sample payload of a WAV byte buffer: the bytes from offset
44 on, as consecutive little-endian signed 16-bit samples. -/
def decodeSamples (bs : List ℕ) : List ℤ :=
  decodeI16Pairs (bs.drop 44)

/-- Sample-rate field of a WAV byte buffer (offset 24, u32 LE). -/
def decodeSampleRate (bs : List ℕ) : ℕ := readU32LE bs 24

/-- Channel-count field of a WAV byte buffer (offset 22, u16 LE). -/
def decodeChannels (bs : List ℕ) : ℕ := readU16LE bs 22

/-- Bits-per-sample field of a WAV byte buffer (offset 34, u16 LE). -/
def decodeBitDepth (bs : List ℕ) : ℕ := readU16LE bs 34

/-- Data-size field of a WAV byte buffer (offset 40, u32 LE). -/
def decodeDataSize (bs : List ℕ) : ℕ := readU32LE bs 40

/-- `main.js` worklet `port.onmessage` body (also the inline
script-processor `onaudioprocess` of `main-scriptprocessor.js`): resample
and quantize the incoming float block; drop it if the leading-silence
option is on, nothing is accumulated yet and the block is exactly zero;
drop it unconditionally if its RMS is below 25; otherwise append. -/
def mainStep (removeSilence : Bool) (rate : ℚ) (chunks : List (List ℤ))
    (float32 : List ℚ) : List (List ℤ) :=
  let pcm16 := downsampleTo16k float32 rate
  if removeSilence && (chunks.length == 0) && isSilent pcm16 then chunks
  else if isSilentFrame pcm16 then chunks
  else chunks ++ [pcm16]

/-- The accumulated timeline after the `main.js` worklet handler has
received the given blocks in order, starting from the empty `chunks`. -/
def mainRecord (removeSilence : Bool) (rate : ℚ) (blocks : List (List ℚ)) :
    List (List ℤ) :=
  blocks.foldl (mainStep removeSilence rate) []

/-- `RecordingController` `onaudioprocess` body of the script-processor
refactor (`AudioRecorder` in `main-scriptprocessor.js`): resample and
quantize; while nothing is accumulated and the flag is on, drop blocks that
are absolutely silent or below the RMS threshold; otherwise append. -/
def srStep (flag : Bool) (rate : ℚ) (chunks : List (List ℤ))
    (float32 : List ℚ) : List (List ℤ) :=
  let pcm16 := downsampleTo16k float32 rate
  if flag && (chunks.length == 0) && (isAbsolutelySilent pcm16 || isBelowThreshold pcm16)
  then chunks
  else chunks ++ [pcm16]

/-- The accumulated timeline after the script-processor refactor has
received the given blocks in order. -/
def srRecord (flag : Bool) (rate : ℚ) (blocks : List (List ℚ)) :
    List (List ℤ) :=
  blocks.foldl (srStep flag rate) []

/-- `onaudioprocess` body of the worker-offloaded variant: state is the
`hasRecordedAudio` flag and the float blocks forwarded to the worker.
While the flag is off and leading-silence removal is on, silent blocks are
skipped; the first accepted block sets the flag; afterwards every block is
forwarded. -/
def workerStep (flag : Bool) (st : Bool × List (List ℚ)) (inputData : List ℚ) :
    Bool × List (List ℚ) :=
  if flag && !st.1 then
    if isAbsolutelySilentFloat32 inputData || isBelowThresholdFloat32 inputData then st
    else (true, st.2 ++ [inputData])
  else (st.1, st.2 ++ [inputData])

/-- State of the worker-offloaded variant after receiving the given blocks
in order, starting with `hasRecordedAudio = false` and nothing forwarded. -/
def workerRecord (flag : Bool) (blocks : List (List ℚ)) : Bool × List (List ℚ) :=
  blocks.foldl (workerStep flag) (false, [])

/-- The float-scale RMS silence rule as the specification words it:
rms strictly below `25 / 32767`.  Stated only to be compared with the
source's `isBelowThresholdFloat32`, whose threshold is `0.001`. -/
def specIsBelowThresholdFloat (samples : List ℚ) : Bool :=
  if samples.length = 0 then false
  else decide (sumSquaresQ samples / (samples.length : ℚ) < (25 / 32767) ^ 2)

/-! ### Helper lemmas: resampler core -/

theorem resampleCore_length (input : List ℚ) (ratio : ℚ) :
    (resampleCore input ratio).length = (⌊(input.length : ℚ) / ratio⌋).toNat := by
  simp only [resampleCore, List.length_map, List.length_range]

theorem resampleCore_one (x : List ℚ) : resampleCore x 1 = x := by
  apply List.ext_getElem
  · simp only [resampleCore, List.length_map, List.length_range, div_one,
      Int.floor_natCast, Int.toNat_natCast]
  · intro i h1 h2
    simp only [resampleCore, List.getElem_map, List.getElem_range, mul_one,
      Int.floor_natCast, Int.cast_natCast, Int.toNat_natCast, sub_self, mul_zero,
      add_zero, sub_zero]
    exact List.getD_eq_getElem x 0 h2

theorem downsampleTo16k_16000 (x : List ℚ) :
    downsampleTo16k x 16000 = x.map (fun sample => toInt16 (sample * 32767)) := by
  have h : (16000 : ℚ) / 16000 = 1 := by norm_num
  rw [downsampleTo16k, h, resampleCore_one]

/-! ### Helper lemmas: quantizer -/

theorem jsTrunc_intCast (n : ℤ) : jsTrunc (n : ℚ) = n := by
  unfold jsTrunc
  split <;> simp

theorem toInt16_intCast (n : ℤ) (h1 : -32768 ≤ n) (h2 : n ≤ 32767) :
    toInt16 (n : ℚ) = n := by
  unfold toInt16
  rw [jsTrunc_intCast]
  split <;> omega

/-! ### Helper lemmas: WAV serialization -/

theorem u32LE_digits (v : ℕ) :
    v % 256 + 256 * (v / 256 % 256) + 65536 * (v / 65536 % 256) +
      16777216 * (v / 16777216 % 256) = v % 4294967296 := by
  omega

theorem wavHeader_length (n : ℕ) : (wavHeader n).length = 44 := rfl

theorem i16LE_length (s : ℤ) : (i16LE s).length = 2 := rfl

theorem length_flatMap_i16LE (samples : List ℤ) :
    (samples.flatMap i16LE).length = 2 * samples.length := by
  induction samples with
  | nil => rfl
  | cons s t ih =>
      simp only [List.flatMap_cons, List.length_append, i16LE_length, ih,
        List.length_cons]
      omega

theorem buildWav_length (samples : List ℤ) :
    (buildWav samples).length = 44 + 2 * samples.length := by
  rw [buildWav, List.length_append, wavHeader_length, length_flatMap_i16LE]

theorem buildWav_drop_44 (samples : List ℤ) :
    (buildWav samples).drop 44 = samples.flatMap i16LE := by
  have h : (44 : ℕ) = (wavHeader samples.length).length := rfl
  rw [buildWav, h, List.drop_left]

theorem wavHeader_eq (n : ℕ) : wavHeader n =
    [82, 73, 70, 70,
     (36 + 2 * n) % 256, (36 + 2 * n) / 256 % 256,
     (36 + 2 * n) / 65536 % 256, (36 + 2 * n) / 16777216 % 256,
     87, 65, 86, 69, 102, 109, 116, 32, 16, 0, 0, 0, 1, 0, 1, 0,
     128, 62, 0, 0, 0, 125, 0, 0, 2, 0, 16, 0, 100, 97, 116, 97,
     2 * n % 256, 2 * n / 256 % 256, 2 * n / 65536 % 256, 2 * n / 16777216 % 256] := by
  simp [wavHeader, u32LE, u16LE]

theorem buildWav_chunkSize (samples : List ℤ)
    (h : 36 + 2 * samples.length < 4294967296) :
    readU32LE (buildWav samples) 4 = 36 + 2 * samples.length := by
  rw [buildWav, wavHeader_eq]
  simp only [readU32LE]
  simp
  omega

theorem buildWav_dataSize (samples : List ℤ)
    (h : 2 * samples.length < 4294967296) :
    readU32LE (buildWav samples) 40 = 2 * samples.length := by
  rw [buildWav, wavHeader_eq]
  simp only [readU32LE]
  simp
  omega

theorem buildWav_sampleRate (samples : List ℤ) :
    readU32LE (buildWav samples) 24 = 16000 := by
  rw [buildWav, wavHeader_eq]
  simp [readU32LE]

theorem buildWav_byteRate (samples : List ℤ) :
    readU32LE (buildWav samples) 28 = 32000 := by
  rw [buildWav, wavHeader_eq]
  simp [readU32LE]

theorem buildWav_subchunk1Size (samples : List ℤ) :
    readU32LE (buildWav samples) 16 = 16 := by
  rw [buildWav, wavHeader_eq]
  simp [readU32LE]

theorem buildWav_audioFormat (samples : List ℤ) :
    readU16LE (buildWav samples) 20 = 1 := by
  rw [buildWav, wavHeader_eq]
  simp [readU16LE]

theorem buildWav_numChannels (samples : List ℤ) :
    readU16LE (buildWav samples) 22 = 1 := by
  rw [buildWav, wavHeader_eq]
  simp [readU16LE]

theorem buildWav_blockAlign (samples : List ℤ) :
    readU16LE (buildWav samples) 32 = 2 := by
  rw [buildWav, wavHeader_eq]
  simp [readU16LE]

theorem buildWav_bitsPerSample (samples : List ℤ) :
    readU16LE (buildWav samples) 34 = 16 := by
  rw [buildWav, wavHeader_eq]
  simp [readU16LE]

theorem buildWav_riff (samples : List ℤ) :
    sliceBytes (buildWav samples) 0 4 = [82, 73, 70, 70] := by
  rw [buildWav, wavHeader_eq]
  simp [sliceBytes]

theorem buildWav_wave (samples : List ℤ) :
    sliceBytes (buildWav samples) 8 4 = [87, 65, 86, 69] := by
  rw [buildWav, wavHeader_eq]
  simp [sliceBytes]

theorem buildWav_fmt (samples : List ℤ) :
    sliceBytes (buildWav samples) 12 4 = [102, 109, 116, 32] := by
  rw [buildWav, wavHeader_eq]
  simp [sliceBytes]

theorem buildWav_data (samples : List ℤ) :
    sliceBytes (buildWav samples) 36 4 = [100, 97, 116, 97] := by
  rw [buildWav, wavHeader_eq]
  simp [sliceBytes]

/-! ### Helper lemmas: decoding -/

theorem decodeI16Pairs_i16LE (xs : List ℤ)
    (h : ∀ s ∈ xs, -32768 ≤ s ∧ s ≤ 32767) :
    decodeI16Pairs (xs.flatMap i16LE) = xs := by
  induction xs with
  | nil => rfl
  | cons s t ih =>
      have hs := h s (by simp)
      simp only [List.flatMap_cons, i16LE, u16LE, List.cons_append, List.nil_append,
        decodeI16Pairs]
      congr 1
      · split <;> omega
      · simpa using ih (fun x hx => h x (by simp [hx]))

theorem decodeSamples_buildWav (samples : List ℤ)
    (h : ∀ s ∈ samples, -32768 ≤ s ∧ s ≤ 32767) :
    decodeSamples (buildWav samples) = samples := by
  rw [decodeSamples, buildWav_drop_44, decodeI16Pairs_i16LE samples h]

/-! ### Helper lemmas: RMS tests through `Real.sqrt` -/

theorem isSilentFrame_iff_sqrt (xs : List ℤ) (h : xs ≠ []) :
    (isSilentFrame xs = true) ↔
      Real.sqrt ((sumSquares xs : ℝ) / (xs.length : ℝ)) < 25 := by
  have hlen : ¬ xs.length = 0 := by simpa using h
  rw [isSilentFrame, if_neg hlen, decide_eq_true_eq,
    Real.sqrt_lt' (by norm_num : (0 : ℝ) < 25),
    show ((25 : ℝ) ^ 2) = 625 by norm_num]
  exact_mod_cast Iff.rfl

theorem isBelowThreshold_iff_sqrt (xs : List ℤ) (h : xs ≠ []) :
    (isBelowThreshold xs = true) ↔
      Real.sqrt ((sumSquares xs : ℝ) / (xs.length : ℝ)) < 25 := by
  have hlen : ¬ xs.length = 0 := by simpa using h
  rw [isBelowThreshold, if_neg hlen, decide_eq_true_eq,
    Real.sqrt_lt' (by norm_num : (0 : ℝ) < 25),
    show ((25 : ℝ) ^ 2) = 625 by norm_num]
  exact_mod_cast Iff.rfl

theorem isBelowThresholdFloat32_iff_sqrt (xs : List ℚ) (h : xs ≠ []) :
    (isBelowThresholdFloat32 xs = true) ↔
      Real.sqrt ((sumSquaresQ xs : ℝ) / (xs.length : ℝ)) < 1 / 1000 := by
  have hlen : ¬ xs.length = 0 := by simpa using h
  rw [isBelowThresholdFloat32, if_neg hlen, decide_eq_true_eq,
    Real.sqrt_lt' (by norm_num : (0 : ℝ) < 1 / 1000),
    show ((1 / 1000 : ℝ) ^ 2) = (((1 : ℚ) / 1000000 : ℚ) : ℝ) by norm_num]
  constructor <;> intro hx <;> exact_mod_cast hx

/-! ### Helper lemmas: pipeline folds -/

theorem srStep_false (rate : ℚ) (chunks : List (List ℤ)) (b : List ℚ) :
    srStep false rate chunks b = chunks ++ [downsampleTo16k b rate] := by
  simp [srStep]

theorem srRecord_false (rate : ℚ) (blocks : List (List ℚ)) :
    srRecord false rate blocks = blocks.map (fun b => downsampleTo16k b rate) := by
  suffices hgen : ∀ acc, blocks.foldl (srStep false rate) acc
      = acc ++ blocks.map (fun b => downsampleTo16k b rate) by
    simpa using hgen []
  induction blocks with
  | nil => intro acc; simp
  | cons b t ih => intro acc; simp [List.foldl_cons, srStep_false, ih]

theorem workerStep_keep (flag : Bool) (st : Bool × List (List ℚ)) (b : List ℚ)
    (h : st.1 = true) : workerStep flag st b = (true, st.2 ++ [b]) := by
  simp [workerStep, h]

theorem workerRecord_false (blocks : List (List ℚ)) :
    workerRecord false blocks = (false, blocks) := by
  suffices hgen : ∀ acc : List (List ℚ),
      blocks.foldl (workerStep false) (false, acc) = (false, acc ++ blocks) by
    simpa using hgen []
  induction blocks with
  | nil => intro acc; simp
  | cons b t ih => intro acc; simpa [workerStep] using ih (acc ++ [b])

/-! ### Helper lemmas: concrete block evaluations -/

theorem toInt16_zero : toInt16 (0 : ℚ) = 0 := by
  have e : ((0 : ℚ)) = ((0 : ℤ) : ℚ) := by norm_num
  rw [e, toInt16_intCast 0 (by norm_num) (by norm_num)]

theorem toInt16_32767 : toInt16 (32767 : ℚ) = 32767 := by
  have e : ((32767 : ℚ)) = ((32767 : ℤ) : ℚ) := by norm_num
  rw [e, toInt16_intCast 32767 (by norm_num) (by norm_num)]

theorem ds_zero_block : downsampleTo16k [0, 0] 16000 = [0, 0] := by
  rw [downsampleTo16k_16000]
  simp [toInt16_zero]

theorem ds_loud_block : downsampleTo16k [1, 1] 16000 = [32767, 32767] := by
  rw [downsampleTo16k_16000]
  simp [toInt16_32767]

theorem isSilent_zero_block : isSilent [0, 0] = true := by decide

theorem isSilent_loud_block : isSilent [32767, 32767] = false := by decide

theorem isSilentFrame_zero_block : isSilentFrame [0, 0] = true := by
  simp only [isSilentFrame, sumSquares]
  norm_num

theorem isSilentFrame_loud_block : isSilentFrame [32767, 32767] = false := by
  simp only [isSilentFrame, sumSquares]
  norm_num

theorem isAbsF_zero_block : isAbsolutelySilentFloat32 [0, 0] = true := by
  simp [isAbsolutelySilentFloat32]

theorem isAbsF_loud_block : isAbsolutelySilentFloat32 [1, 1] = false := by
  simp [isAbsolutelySilentFloat32]

theorem isBTF_loud_block : isBelowThresholdFloat32 [1, 1] = false := by
  simp only [isBelowThresholdFloat32, sumSquaresQ]
  norm_num

theorem mainRecord_run_true :
    mainRecord true 16000 [[0, 0], [0, 0], [1, 1], [0, 0]] = [[32767, 32767]] := by
  simp [mainRecord, mainStep, ds_zero_block, ds_loud_block, isSilent_zero_block,
    isSilent_loud_block, isSilentFrame_zero_block, isSilentFrame_loud_block]

theorem mainRecord_run_false :
    mainRecord false 16000 [[0, 0], [0, 0], [1, 1], [0, 0]] = [[32767, 32767]] := by
  simp [mainRecord, mainStep, ds_zero_block, ds_loud_block,
    isSilentFrame_zero_block, isSilentFrame_loud_block]

theorem workerRecord_run_true :
    workerRecord true [[0, 0], [0, 0], [1, 1], [0, 0]] = (true, [[1, 1], [0, 0]]) := by
  simp [workerRecord, workerStep, isAbsF_zero_block, isAbsF_loud_block, isBTF_loud_block]

theorem srRecord_run_false :
    srRecord false 16000 [[0, 0], [0, 0], [1, 1], [0, 0]]
      = [[0, 0], [0, 0], [32767, 32767], [0, 0]] := by
  rw [srRecord_false]
  simp [ds_zero_block, ds_loud_block]

theorem toInt16_neg32767 : toInt16 (-32767 : ℚ) = -32767 := by
  have e : ((-32767 : ℚ)) = ((-32767 : ℤ) : ℚ) := by norm_num
  rw [e, toInt16_intCast (-32767) (by norm_num) (by norm_num)]

theorem toInt16_two_mul : toInt16 ((2 : ℚ) * 32767) = -2 := by
  have e : ((2 : ℚ) * 32767) = ((65534 : ℤ) : ℚ) := by norm_num
  rw [e]
  unfold toInt16
  rw [jsTrunc_intCast]
  decide

theorem toInt16_eq_jsTrunc (q : ℚ) (h1 : -1 ≤ q) (h2 : q ≤ 1) :
    toInt16 (q * 32767) = jsTrunc (q * 32767) := by
  have hb1 : (-32767 : ℚ) ≤ q * 32767 := by nlinarith
  have hb2 : q * 32767 ≤ 32767 := by nlinarith
  have ht1 : (-32767 : ℤ) ≤ jsTrunc (q * 32767) := by
    unfold jsTrunc
    split
    · have h0 : (0 : ℤ) ≤ ⌊q * 32767⌋ := Int.floor_nonneg.2 (by assumption)
      omega
    · have hc : ((-32767 : ℤ) : ℚ) ≤ q * 32767 := by exact_mod_cast hb1
      have hcc : ((-32767 : ℤ) : ℚ) ≤ (⌈q * 32767⌉ : ℚ) :=
        le_trans hc (Int.le_ceil (q * 32767))
      exact_mod_cast hcc
  have ht2 : jsTrunc (q * 32767) ≤ 32767 := by
    unfold jsTrunc
    split
    · have hf : (⌊q * 32767⌋ : ℚ) ≤ (32767 : ℚ) :=
        le_trans (Int.floor_le (q * 32767)) hb2
      exact_mod_cast hf
    · rename_i hneg
      have hv : q * 32767 ≤ ((0 : ℤ) : ℚ) := by
        push_cast
        linarith [lt_of_not_ge hneg]
      have h0 : ⌈q * 32767⌉ ≤ 0 := Int.ceil_le.2 hv
      omega
  unfold toInt16
  split <;> omega

theorem isSilentFrame_boundary_25 : isSilentFrame [25] = false := by
  simp only [isSilentFrame, sumSquares]
  norm_num

theorem isSilentFrame_below_24 : isSilentFrame [24] = true := by
  simp only [isSilentFrame, sumSquares]
  norm_num

theorem isBTF_boundary : isBelowThresholdFloat32 [(1 : ℚ) / 1000] = false := by
  simp only [isBelowThresholdFloat32, sumSquaresQ]
  norm_num

theorem resampleCore_nil (ratio : ℚ) : resampleCore [] ratio = [] := by
  simp [resampleCore]

theorem resampleCore_length_nat (x : List ℚ) (r t : ℕ) (hr : 0 < r) (ht : 0 < t) :
    (resampleCore x ((r : ℚ) / (t : ℚ))).length = x.length * t / r := by
  rw [resampleCore_length]
  have hr0 : ((r : ℚ)) ≠ 0 := by positivity
  have ht0 : ((t : ℚ)) ≠ 0 := by positivity
  have e : (x.length : ℚ) / ((r : ℚ) / (t : ℚ))
      = (((x.length * t : ℕ) : ℤ) : ℚ) / ((r : ℕ) : ℚ) := by
    rw [div_div_eq_mul_div]
    push_cast
    ring
  rw [e, Rat.floor_intCast_div_natCast,
    show (((x.length * t : ℕ) : ℤ) / ((r : ℕ) : ℤ)) = ((x.length * t / r : ℕ) : ℤ)
      from (Int.ofNat_div _ _).symm, Int.toNat_natCast]

/-! ### Claim theorems -/

/-- C1, counterexample: in the `main.js` worklet pipeline with
`removeLeadingSilence` enabled, the block sequence `[zero, zero, loud,
zero]` accumulates `[loud]` and not `[loud, zero]`: the unconditional RMS
gate `if (isSilentFrame(pcm16)) return` drops the trailing silent block
even though a non-silent block has already been accepted. -/
theorem c1_counterexample :
    mainRecord true 16000 [[0, 0], [0, 0], [1, 1], [0, 0]] = [[32767, 32767]] ∧
    ([[32767, 32767]] : List (List ℤ)) ≠ [[32767, 32767], [0, 0]] :=
  ⟨mainRecord_run_true, by decide⟩

/-- C1 (amended): with leading-silence removal enabled, the one-shot
leading-silence trim holds in the worker-offloaded variant: once a block
has been accepted (`hasRecordedAudio = true`) every later block is
forwarded unconditionally, even if silent, and `[zero, zero, loud, zero]`
yields exactly `[loud, zero]`; in the `main.js` worklet pipeline a second,
unconditional RMS gate additionally drops every block with RMS below 25
even after acceptance, so the same input yields `[loud]` there. -/
theorem c1_one_shot_trim :
    (∀ (flag : Bool) (st : Bool × List (List ℚ)) (b : List ℚ), st.1 = true →
        workerStep flag st b = (true, st.2 ++ [b])) ∧
    workerRecord true [[0, 0], [0, 0], [1, 1], [0, 0]] = (true, [[1, 1], [0, 0]]) ∧
    mainRecord true 16000 [[0, 0], [0, 0], [1, 1], [0, 0]] = [[32767, 32767]] :=
  ⟨workerStep_keep, workerRecord_run_true, mainRecord_run_true⟩

/-- Witness for C1's amended theorem at a concrete accepted state. -/
theorem c1_one_shot_trim_witness :
    workerStep true (true, [[1, 1]]) [0, 0] = (true, [[1, 1]] ++ [[0, 0]]) :=
  c1_one_shot_trim.1 true (true, [[1, 1]]) [0, 0] rfl

/-- C2, counterexample: in the `main.js` worklet pipeline with
`removeLeadingSilence = false`, the block sequence `[zero, zero, loud,
zero]` accumulates only `[loud]`, not all four blocks: the RMS gate runs
regardless of the configuration flag. -/
theorem c2_counterexample :
    mainRecord false 16000 [[0, 0], [0, 0], [1, 1], [0, 0]] = [[32767, 32767]] ∧
    ([[32767, 32767]] : List (List ℤ))
      ≠ [[0, 0], [0, 0], [32767, 32767], [0, 0]] :=
  ⟨mainRecord_run_false, by decide⟩

/-- C2 (amended): with the flag off, the script-processor refactor and the
worker-offloaded variant apply no silence filtering at all — every block is
resampled, quantized and appended, and `[zero, zero, loud, zero]` is
retained in full; the `main.js` worklet pipeline still drops every block
with RMS below 25 through its unconditional gate, keeping only `[loud]`. -/
theorem c2_no_filter_when_disabled :
    (∀ (rate : ℚ) (blocks : List (List ℚ)),
        srRecord false rate blocks = blocks.map (fun b => downsampleTo16k b rate)) ∧
    (∀ blocks : List (List ℚ), workerRecord false blocks = (false, blocks)) ∧
    srRecord false 16000 [[0, 0], [0, 0], [1, 1], [0, 0]]
      = [[0, 0], [0, 0], [32767, 32767], [0, 0]] ∧
    mainRecord false 16000 [[0, 0], [0, 0], [1, 1], [0, 0]] = [[32767, 32767]] :=
  ⟨srRecord_false, workerRecord_false, srRecord_run_false, mainRecord_run_false⟩

/-- C3, counterexample: the worker quantizer `float32ToInt16` clamps to
`[-1, 1]` before scaling: at sample `2.0` it returns `32767` (saturation),
whereas the claimed unclamped multiply-truncate wraps
`trunc(2 * 32767) = 65534` to `-2` modulo 2^16. -/
theorem c3_counterexample :
    float32ToInt16 [2] = [32767] ∧ toInt16 ((2 : ℚ) * 32767) = -2 ∧
    ((32767 : ℤ) ≠ -2) := by
  refine ⟨?_, toInt16_two_mul, by decide⟩
  have e : max (-1 : ℚ) (min 1 2) = 1 := by norm_num
  simp [float32ToInt16, e, toInt16_32767]

/-- C3 (amended): the inline quantizer (`downsampleTo16k`, and
`AudioProcessor.downsample`) is the unclamped multiply-by-0x7fff through
`ToInt16`; for samples in `[-1, 1]` both quantizers produce the plain
truncation of `sample * 32767`, and outside that range the inline
quantizer wraps modulo 2^16 (e.g. `2 ↦ -2`) while the worker's
`float32ToInt16` clamps first and so saturates at `±32767`. -/
theorem c3_quantizer_wrap_vs_clamp :
    (∀ x : List ℚ, downsampleTo16k x 16000
        = x.map (fun sample => toInt16 (sample * 32767))) ∧
    (∀ q : ℚ, -1 ≤ q → q ≤ 1 → toInt16 (q * 32767) = jsTrunc (q * 32767)) ∧
    (∀ q : ℚ, -1 ≤ q → q ≤ 1 → float32ToInt16 [q] = [toInt16 (q * 32767)]) ∧
    (∀ q : ℚ, 1 < q → float32ToInt16 [q] = [32767]) ∧
    (∀ q : ℚ, q < -1 → float32ToInt16 [q] = [-32767]) ∧
    toInt16 ((2 : ℚ) * 32767) = -2 := by
  refine ⟨downsampleTo16k_16000, toInt16_eq_jsTrunc, ?_, ?_, ?_, toInt16_two_mul⟩
  · intro q h1 h2
    have e : max (-1 : ℚ) (min 1 q) = q := by
      rw [min_eq_right h2, max_eq_right h1]
    simp [float32ToInt16, e]
  · intro q hq
    have e : max (-1 : ℚ) (min 1 q) = 1 := by
      rw [min_eq_left (le_of_lt hq)]
      norm_num
    simp [float32ToInt16, e, toInt16_32767]
  · intro q hq
    have e : max (-1 : ℚ) (min 1 q) = -1 := by
      rw [min_eq_right (by linarith)]
      exact max_eq_left (by linarith)
    simp [float32ToInt16, e, toInt16_neg32767]

/-- Witness for C3's amended theorem at concrete samples 1/2 and 2. -/
theorem c3_quantizer_witness :
    ((-1 : ℚ) ≤ 1 / 2 ∧ (1 / 2 : ℚ) ≤ 1 ∧
      toInt16 ((1 / 2 : ℚ) * 32767) = jsTrunc ((1 / 2 : ℚ) * 32767) ∧
      float32ToInt16 [(1 / 2 : ℚ)] = [toInt16 ((1 / 2 : ℚ) * 32767)]) ∧
    ((1 : ℚ) < 2 ∧ float32ToInt16 [(2 : ℚ)] = [32767]) :=
  ⟨⟨by norm_num, by norm_num,
    c3_quantizer_wrap_vs_clamp.2.1 (1 / 2) (by norm_num) (by norm_num),
    c3_quantizer_wrap_vs_clamp.2.2.1 (1 / 2) (by norm_num) (by norm_num)⟩,
   ⟨by norm_num, c3_quantizer_wrap_vs_clamp.2.2.2.1 2 (by norm_num)⟩⟩

/-- C4, counterexample: the float-scale RMS threshold in the source is
0.001, not 25/32767 ≈ 0.00076: the one-sample block `[0.0009]` has RMS
0.0009, which `isBelowThresholdFloat32` classifies as silent although the
claimed `25/32767` rule does not. -/
theorem c4_counterexample :
    isBelowThresholdFloat32 [(9 : ℚ) / 10000] = true ∧
    specIsBelowThresholdFloat [(9 : ℚ) / 10000] = false := by
  constructor
  · simp only [isBelowThresholdFloat32, sumSquaresQ]
    norm_num
  · simp only [specIsBelowThresholdFloat, sumSquaresQ]
    norm_num

/-- C4 (amended): each RMS test classifies a nonempty block silent exactly
when `sqrt(sum of squares / count)` is strictly below its threshold — 25
for the PCM16-scale tests and 0.001 (not 25/32767) for the float-scale
test; a block whose RMS equals the threshold exactly is not silent. -/
theorem c4_rms_threshold_semantics :
    (∀ xs : List ℤ, xs ≠ [] →
      ((isSilentFrame xs = true) ↔
        Real.sqrt ((sumSquares xs : ℝ) / (xs.length : ℝ)) < 25)) ∧
    (∀ xs : List ℤ, xs ≠ [] →
      ((isBelowThreshold xs = true) ↔
        Real.sqrt ((sumSquares xs : ℝ) / (xs.length : ℝ)) < 25)) ∧
    isSilentFrame [25] = false ∧
    isSilentFrame [24] = true ∧
    (∀ xs : List ℚ, xs ≠ [] →
      ((isBelowThresholdFloat32 xs = true) ↔
        Real.sqrt ((sumSquaresQ xs : ℝ) / (xs.length : ℝ)) < 1 / 1000)) ∧
    isBelowThresholdFloat32 [(1 : ℚ) / 1000] = false :=
  ⟨isSilentFrame_iff_sqrt, isBelowThreshold_iff_sqrt, isSilentFrame_boundary_25,
   isSilentFrame_below_24, isBelowThresholdFloat32_iff_sqrt, isBTF_boundary⟩

/-- Witness for C4's amended theorem at the boundary block `[25]`. -/
theorem c4_rms_witness :
    ([25] : List ℤ) ≠ [] ∧
    ((isSilentFrame [25] = true) ↔
      Real.sqrt ((sumSquares [25] : ℝ) / (([25] : List ℤ).length : ℝ)) < 25) :=
  ⟨by decide, c4_rms_threshold_semantics.1 [25] (by decide)⟩

/-- C5: `encode(samples)` is `44 + 2 * sampleCount` bytes whose first 44
bytes are the canonical little-endian WAV header: "RIFF", chunkSize
`36 + N`, "WAVE", "fmt ", subchunk1Size 16, audioFormat 1, numChannels 1,
sampleRate 16000, byteRate 32000, blockAlign 2, bitsPerSample 16, "data",
dataSize `N = 2 * sampleCount` (stated under the size bound that keeps the
32-bit size fields from wrapping). -/
theorem c5_wav_header (samples : List ℤ)
    (h : 36 + 2 * samples.length < 4294967296) :
    (buildWav samples).length = 44 + 2 * samples.length ∧
    sliceBytes (buildWav samples) 0 4 = [82, 73, 70, 70] ∧
    readU32LE (buildWav samples) 4 = 36 + 2 * samples.length ∧
    sliceBytes (buildWav samples) 8 4 = [87, 65, 86, 69] ∧
    sliceBytes (buildWav samples) 12 4 = [102, 109, 116, 32] ∧
    readU32LE (buildWav samples) 16 = 16 ∧
    readU16LE (buildWav samples) 20 = 1 ∧
    readU16LE (buildWav samples) 22 = 1 ∧
    readU32LE (buildWav samples) 24 = 16000 ∧
    readU32LE (buildWav samples) 28 = 32000 ∧
    readU16LE (buildWav samples) 32 = 2 ∧
    readU16LE (buildWav samples) 34 = 16 ∧
    sliceBytes (buildWav samples) 36 4 = [100, 97, 116, 97] ∧
    readU32LE (buildWav samples) 40 = 2 * samples.length :=
  ⟨buildWav_length samples, buildWav_riff samples, buildWav_chunkSize samples h,
   buildWav_wave samples, buildWav_fmt samples, buildWav_subchunk1Size samples,
   buildWav_audioFormat samples, buildWav_numChannels samples,
   buildWav_sampleRate samples, buildWav_byteRate samples,
   buildWav_blockAlign samples, buildWav_bitsPerSample samples,
   buildWav_data samples, buildWav_dataSize samples (by omega)⟩

/-- Witness for C5 at the empty buffer: 44 bytes and a zero dataSize
field. -/
theorem c5_wav_header_witness :
    36 + 2 * ([] : List ℤ).length < 4294967296 ∧
    (buildWav ([] : List ℤ)).length = 44 + 2 * ([] : List ℤ).length ∧
    readU32LE (buildWav ([] : List ℤ)) 40 = 2 * ([] : List ℤ).length := by
  have h := c5_wav_header [] (by decide)
  exact ⟨by decide, h.1, h.2.2.2.2.2.2.2.2.2.2.2.2.2⟩

/-- C6: decoding `encode(mergeAll(blocks))` — header fields plus the bytes
from offset 44 read as little-endian signed 16-bit samples — recovers
sampleRate 16000, channels 1, bitDepth 16, dataSize twice the total sample
count, and the exact concatenation of the blocks in order, for PCM16
samples in the signed 16-bit range. -/
theorem c6_roundtrip (blocks : List (List ℤ))
    (hr : ∀ b ∈ blocks, ∀ s ∈ b, -32768 ≤ s ∧ s ≤ 32767)
    (hn : 2 * (mergeChunks blocks).length < 4294967296) :
    decodeSampleRate (buildWav (mergeChunks blocks)) = 16000 ∧
    decodeChannels (buildWav (mergeChunks blocks)) = 1 ∧
    decodeBitDepth (buildWav (mergeChunks blocks)) = 16 ∧
    decodeDataSize (buildWav (mergeChunks blocks)) = 2 * (mergeChunks blocks).length ∧
    decodeSamples (buildWav (mergeChunks blocks)) = mergeChunks blocks := by
  refine ⟨buildWav_sampleRate _, buildWav_numChannels _, buildWav_bitsPerSample _,
    buildWav_dataSize _ hn, decodeSamples_buildWav _ ?_⟩
  intro s hs
  rw [mergeChunks] at hs
  obtain ⟨b, hb, hsb⟩ := List.mem_flatten.1 hs
  exact hr b hb s hsb

/-- Witness for C6 at the concrete blocks `[[1, -2], [32767]]`. -/
theorem c6_roundtrip_witness :
    decodeSamples (buildWav (mergeChunks [[1, -2], [32767]]))
      = mergeChunks [[1, -2], [32767]] ∧
    decodeDataSize (buildWav (mergeChunks [[1, -2], [32767]]))
      = 2 * (mergeChunks [[1, -2], [32767]]).length := by
  have h := c6_roundtrip [[1, -2], [32767]] (by decide) (by decide)
  exact ⟨h.2.2.2.2, h.2.2.2.1⟩

/-- C7: for positive source and target rates the resampler output length
is `floor(inputLength * targetRate / sourceRate)` — for the pure float
resampler and for the quantizing 16 kHz resampler alike — and an empty
input yields an empty output. -/
theorem c7_resample_length (x : List ℚ) (r t : ℕ) (hr : 0 < r) (ht : 0 < t) :
    (downsample x r t).length = x.length * t / r ∧
    (downsampleTo16k x r).length = x.length * 16000 / r ∧
    downsample ([] : List ℚ) r t = [] := by
  refine ⟨?_, ?_, ?_⟩
  · rw [downsample]
    exact resampleCore_length_nat x r t hr ht
  · rw [downsampleTo16k, List.length_map,
      show (16000 : ℚ) = ((16000 : ℕ) : ℚ) by norm_num]
    exact resampleCore_length_nat x r 16000 hr (by norm_num)
  · rw [downsample, resampleCore_nil]

/-- Witness for C7: three samples at 48000 to 16000 give
`floor(3 * 16000 / 48000) = 1` output sample. -/
theorem c7_resample_length_witness :
    0 < (48000 : ℕ) ∧ 0 < (16000 : ℕ) ∧
    (downsample [1 / 2, 1 / 2, 1 / 2] ((48000 : ℕ) : ℚ) ((16000 : ℕ) : ℚ)).length
      = ([1 / 2, 1 / 2, 1 / 2] : List ℚ).length * 16000 / 48000 :=
  ⟨by norm_num, by norm_num,
   (c7_resample_length [1 / 2, 1 / 2, 1 / 2] 48000 16000 (by norm_num) (by norm_num)).1⟩

/-- C8: resampling at unity ratio is the identity — for any nonzero rate
`r`, `downsample x r r` returns `x` sample-for-sample (the ratio is
exactly 1, every fractional part is 0, and the interpolation degenerates
to a copy, including the final sample). -/
theorem c8_resample_identity (x : List ℚ) (r : ℚ) (hr : r ≠ 0) :
    downsample x r r = x := by
  rw [downsample, div_self hr, resampleCore_one]

/-- Witness for C8 at a concrete block and rate 44100. -/
theorem c8_resample_identity_witness :
    (44100 : ℚ) ≠ 0 ∧ downsample [3, 1 / 2] 44100 44100 = [3, 1 / 2] :=
  ⟨by norm_num, c8_resample_identity [3, 1 / 2] 44100 (by norm_num)⟩

/-- C9: finalizing with an empty accumulated timeline is a defined
non-error outcome: merging zero chunks gives the empty buffer, encoding it
gives a valid 44-byte container with dataSize 0 (and sampleRate still
16000), and the resampler and quantizer map empty input to empty output —
all functions are total, none has an error state. -/
theorem c9_empty_finalize :
    mergeChunks ([] : List (List ℤ)) = [] ∧
    (buildWav (mergeChunks [])).length = 44 ∧
    readU32LE (buildWav (mergeChunks [])) 40 = 0 ∧
    readU32LE (buildWav (mergeChunks [])) 24 = 16000 ∧
    (∀ sourceRate targetRate : ℚ, downsample [] sourceRate targetRate = []) ∧
    (∀ rate : ℚ, downsampleTo16k [] rate = []) ∧
    float32ToInt16 [] = [] := by
  refine ⟨rfl, by decide, by decide, by decide, fun a b => ?_, fun rate => ?_, rfl⟩
  · rw [downsample, resampleCore_nil]
  · rw [downsampleTo16k, resampleCore_nil]
    rfl

/-- C10: the two silence-test families disagree on the empty block — the
exact-zero tests are vacuously true on it, while the RMS tests (whose JS
computation is `0/0 = NaN`, and `NaN < threshold` is false) classify it as
not silent. -/
theorem c10_empty_block_disagreement :
    isSilent [] = true ∧ isAbsolutelySilent [] = true ∧
    isAbsolutelySilentFloat32 [] = true ∧
    isSilentFrame [] = false ∧ isBelowThreshold [] = false ∧
    isBelowThresholdFloat32 [] = false :=
  ⟨rfl, rfl, rfl, rfl, rfl, rfl⟩
